import Mathlib

/-!
Verification of the OAuth/PKCE token-lifecycle subsystem of the
schwab-ai-scalper-dashboard backend.

The embedding models, from `src/backend/routes/auth.js` and
`src/backend/routes/trading.js`:

- the in-memory token stores (JS `Map`s from session id strings to token
  records), embedded as association lists with Map semantics
  (`set` replaces, `delete` removes, `get`/`has` look up). The program has
  two distinct, never-connected instances: the module-local Map of auth.js
  (written by the auth routes) and the Map of backend/utils/tokenStore.js,
  which is the one trading.js imports and the Gate reads;
- the `/authorize` route handler (stores `oauthState` and `codeVerifier`
  on the request session);
- the `/callback` route handler (state validation, code exchange, token
  storage under a freshly generated session id, redirect);
- the `/refresh` route handler (session lookup, refresh exchange,
  store update with refresh-token reuse on omission);
- the `/logout` route handler (conditional delete, always `success`);
- the `authenticateRequest` middleware of the trading routes (session key
  resolution with the `default-user` fallback, token lookup, expiry check).

Randomness (`crypto.randomBytes`) and the outbound HTTP exchange with the
provider are oracles: generated values and the provider response arrive as
explicit parameters. `Date.now()` is an explicit `now : Int` parameter in
milliseconds. JS falsiness of strings is modelled by the empty string, and
absent values (`undefined`) by `Option`.
-/

/-- A stored token record, as written by the callback and refresh handlers:
`{ accessToken, refreshToken, expiresAt }`. The refresh token may be absent
(`refresh_token` omitted by the provider), the access token is a string whose
emptiness models JS falsiness. -/
structure TokenRecord where
  accessToken : String
  refreshToken : Option String
  expiresAt : Int
deriving DecidableEq, Repr

/-- The JSON body of a successful provider token response:
`{ access_token, refresh_token, expires_in }` (expires_in in seconds). -/
structure TokenResponse where
  access_token : String
  refresh_token : Option String
  expires_in : Int
deriving DecidableEq, Repr

/-- Lookup in an association list, first match wins (JS `Map.get`). -/
def lookupEntry : List (String × TokenRecord) → String → Option TokenRecord
  | [], _ => none
  | (k, v) :: rest, key => if k = key then some v else lookupEntry rest key

/-- Insert-or-replace in an association list (JS `Map.set`). -/
def setEntry : List (String × TokenRecord) → String → TokenRecord →
    List (String × TokenRecord)
  | [], key, v => [(key, v)]
  | (k, w) :: rest, key, v =>
      if k = key then (key, v) :: rest else (k, w) :: setEntry rest key v

/-- Remove a key from an association list (JS `Map.delete`). -/
def deleteEntry : List (String × TokenRecord) → String →
    List (String × TokenRecord)
  | [], _ => []
  | (k, v) :: rest, key =>
      if k = key then deleteEntry rest key else (k, v) :: deleteEntry rest key

/-- The shape of an in-memory token store Map. The program holds two
distinct instances of it: `const tokenStore = new Map()` in auth.js (line 8,
written by the callback/refresh/logout handlers; exported at line 182 but
imported by no other module), and `const store = new Map()` in
backend/utils/tokenStore.js — the instance trading.js line 16 imports and
the `authenticateRequest` Gate reads. The two Maps are never connected. -/
structure TokenStore where
  entries : List (String × TokenRecord)
deriving DecidableEq, Repr

def TokenStore.get (s : TokenStore) (key : String) : Option TokenRecord :=
  lookupEntry s.entries key

def TokenStore.has (s : TokenStore) (key : String) : Bool :=
  (s.get key).isSome

def TokenStore.set (s : TokenStore) (key : String) (v : TokenRecord) :
    TokenStore :=
  ⟨setEntry s.entries key v⟩

def TokenStore.delete (s : TokenStore) (key : String) : TokenStore :=
  ⟨deleteEntry s.entries key⟩

/-- The per-request session object (`req.session`) as used by the auth
routes: the fields written by `/authorize` and read by `/callback`. -/
structure Session where
  oauthState : Option String
  codeVerifier : Option String
deriving DecidableEq, Repr

/-- Effect of `GET /api/auth/authorize` on the request session:
`req.session = req.session || {}; req.session.oauthState = state;
req.session.codeVerifier = codeVerifier;`. The generated random values
arrive as parameters (randomness oracle). -/
def authorizeRoute (session : Option Session) (st codeVerifier : String) :
    Session :=
  let s := session.getD { oauthState := none, codeVerifier := none }
  { s with oauthState := some st, codeVerifier := some codeVerifier }

/-- Observable result of the `/callback` handler: a redirect to
`/dashboard?session=<sessionId>` on success, or to
`/error?message=<message>` on any thrown error. -/
inductive CallbackResult where
  | redirectDashboard (sessionId : String)
  | redirectError (message : String)
deriving DecidableEq, Repr

/-- Full outcome of a `/callback` invocation: the token store afterwards,
the request session afterwards (the handler never writes to it), and the
response. -/
structure CallbackOutcome where
  store : TokenStore
  session : Option Session
  result : CallbackResult
deriving DecidableEq, Repr

/-- The `GET /api/auth/callback` handler. `code` and `st` are the query
parameters (absent = `none`); `exchange` is the provider response oracle
(`none` models a thrown axios error: non-2xx status or transport failure);
`freshSessionId` is the `crypto.randomBytes(32).toString(hex)` oracle; `now`
is `Date.now()`. The state check is
`if (!req.session || state !== req.session.oauthState) throw`, and every
thrown error redirects to the error page. -/
def callbackRoute (store : TokenStore) (session : Option Session)
    (code st : Option String) (exchange : Option TokenResponse)
    (freshSessionId : String) (now : Int) : CallbackOutcome :=
  match session with
  | none =>
      { store := store, session := none,
        result := .redirectError "auth_failed" }
  | some s =>
      if st ≠ s.oauthState then
        { store := store, session := some s,
          result := .redirectError "auth_failed" }
      else
        match exchange with
        | none =>
            { store := store, session := some s,
              result := .redirectError "auth_failed" }
        | some tr =>
            { store := store.set freshSessionId
                { accessToken := tr.access_token
                  refreshToken := tr.refresh_token
                  expiresAt := now + tr.expires_in * 1000 }
              session := some s
              result := .redirectDashboard freshSessionId }

/-- Response of the `/refresh` handler: 401 `{ error: Invalid session }`,
500 `{ error: Failed to refresh token }`, or `{ success: true }`. -/
inductive RefreshResult where
  | invalidSession
  | refreshFailed
  | success
deriving DecidableEq, Repr

/-- Outcome of a `/refresh` invocation, with `outboundCall` recording
whether the handler reached the outbound provider exchange. -/
structure RefreshOutcome where
  store : TokenStore
  result : RefreshResult
  outboundCall : Bool
deriving DecidableEq, Repr

/-- The `POST /api/auth/refresh` handler. `sessionId` is `req.body.sessionId`
(absent = `none`, with the empty string also falsy); `exchange` is the
provider response oracle (`none` = thrown axios error). The handler returns
401 before any outbound call when `!sessionId || !tokenStore.has(sessionId)`;
otherwise it performs the exchange and on success stores
`refresh_token || tokens.refreshToken` and `Date.now() + expires_in * 1000`. -/
def refreshRoute (store : TokenStore) (sessionId : Option String)
    (exchange : Option TokenResponse) (now : Int) : RefreshOutcome :=
  match sessionId with
  | none => { store := store, result := .invalidSession, outboundCall := false }
  | some sid =>
      if sid = "" then
        { store := store, result := .invalidSession, outboundCall := false }
      else
        match store.get sid with
        | none =>
            { store := store, result := .invalidSession, outboundCall := false }
        | some tokens =>
            match exchange with
            | none =>
                { store := store, result := .refreshFailed,
                  outboundCall := true }
            | some tr =>
                let newRefresh : Option String :=
                  match tr.refresh_token with
                  | some rt =>
                      if rt = "" then tokens.refreshToken else some rt
                  | none => tokens.refreshToken
                { store := store.set sid
                    { accessToken := tr.access_token
                      refreshToken := newRefresh
                      expiresAt := now + tr.expires_in * 1000 }
                  result := .success
                  outboundCall := true }

/-- Outcome of a `/logout` invocation; the handler always responds
`{ success: true }` (its try block cannot throw). -/
structure LogoutOutcome where
  store : TokenStore
  success : Bool
deriving DecidableEq, Repr

/-- The `POST /api/auth/logout` handler:
`if (sessionId && tokenStore.has(sessionId)) tokenStore.delete(sessionId);
res.json({ success: true });`. -/
def logoutRoute (store : TokenStore) (sessionId : Option String) :
    LogoutOutcome :=
  match sessionId with
  | none => { store := store, success := true }
  | some sid =>
      if sid = "" then { store := store, success := true }
      else if store.has sid then
        { store := store.delete sid, success := true }
      else { store := store, success := true }

/-- Result of the `authenticateRequest` middleware in trading.js:
401 `{ error: Unauthorized }`, 401 `{ error: Token expired }`, or a pass
to the downstream handler with `req.accessToken` and `req.sessionKey` set. -/
inductive AuthResult where
  | unauthorized
  | tokenExpired
  | ok (accessToken : String) (sessionKey : String)
deriving DecidableEq, Repr

/-- JS short-circuit `a || b` on a possibly-absent string, where the empty
string is falsy. -/
def jsOr (a : Option String) (b : String) : String :=
  match a with
  | some s => if s = "" then b else s
  | none => b

/-- Session key resolution of `authenticateRequest`:
`req.headers[sessionid] || req.sessionID || default-user`. -/
def resolveSessionId (headerSessionId reqSessionID : Option String) : String :=
  jsOr headerSessionId (jsOr reqSessionID "default-user")

/-- The `authenticateRequest` middleware of trading.js (the Authorization
Gate): resolves the session key, rejects with 401 Unauthorized when the
store has no record (or the record has a falsy `accessToken`), rejects with
401 Token expired when `tokens.expiresAt <= Date.now()`, and otherwise
passes the stored access token downstream. -/
def authenticateRequest (store : TokenStore)
    (headerSessionId reqSessionID : Option String) (now : Int) : AuthResult :=
  let sessionId := resolveSessionId headerSessionId reqSessionID
  if sessionId = "" then .unauthorized
  else
    match store.get sessionId with
    | none => .unauthorized
    | some tokens =>
        if tokens.accessToken = "" then .unauthorized
        else if tokens.expiresAt ≤ now then .tokenExpired
        else .ok tokens.accessToken sessionId

/-- The store instance of backend/utils/tokenStore.js as the program runs:
it is created empty, and no module in the repository ever writes it —
trading.js only calls its `has` and `get`, and the auth routes write the
distinct auth.js Map. This is the store the Gate reads on every trading
request. -/
def utilsTokenStore : TokenStore := ⟨[]⟩

/-! Map lemmas for the token store. -/

theorem lookupEntry_setEntry_self (l : List (String × TokenRecord))
    (k : String) (v : TokenRecord) :
    lookupEntry (setEntry l k v) k = some v := by
  induction l with
  | nil => simp [setEntry, lookupEntry]
  | cons hd tl ih =>
    obtain ⟨a, b⟩ := hd
    by_cases h : a = k
    · simp [setEntry, h, lookupEntry]
    · simp [setEntry, h, lookupEntry, ih]

theorem lookupEntry_setEntry_ne (l : List (String × TokenRecord))
    (k k2 : String) (v : TokenRecord) (h : k2 ≠ k) :
    lookupEntry (setEntry l k v) k2 = lookupEntry l k2 := by
  have hne : k ≠ k2 := Ne.symm h
  induction l with
  | nil => simp [setEntry, lookupEntry, hne]
  | cons hd tl ih =>
    obtain ⟨a, b⟩ := hd
    by_cases ha : a = k
    · subst ha
      simp [setEntry, lookupEntry, hne]
    · simp [setEntry, ha, lookupEntry, ih]

theorem lookupEntry_deleteEntry_self (l : List (String × TokenRecord))
    (k : String) :
    lookupEntry (deleteEntry l k) k = none := by
  induction l with
  | nil => simp [deleteEntry, lookupEntry]
  | cons hd tl ih =>
    obtain ⟨a, b⟩ := hd
    by_cases h : a = k
    · simp [deleteEntry, h, ih]
    · simp [deleteEntry, h, lookupEntry, ih]

theorem lookupEntry_deleteEntry_ne (l : List (String × TokenRecord))
    (k k2 : String) (h : k2 ≠ k) :
    lookupEntry (deleteEntry l k) k2 = lookupEntry l k2 := by
  have hne : k ≠ k2 := Ne.symm h
  induction l with
  | nil => simp [deleteEntry]
  | cons hd tl ih =>
    obtain ⟨a, b⟩ := hd
    by_cases ha : a = k
    · subst ha
      simp [deleteEntry, lookupEntry, hne, ih]
    · simp [deleteEntry, ha, lookupEntry, ih]

theorem TokenStore.get_set_self (s : TokenStore) (k : String)
    (v : TokenRecord) : (s.set k v).get k = some v :=
  lookupEntry_setEntry_self s.entries k v

theorem TokenStore.get_set_ne (s : TokenStore) (k k2 : String)
    (v : TokenRecord) (h : k2 ≠ k) : (s.set k v).get k2 = s.get k2 :=
  lookupEntry_setEntry_ne s.entries k k2 v h

theorem TokenStore.get_delete_self (s : TokenStore) (k : String) :
    (s.delete k).get k = none :=
  lookupEntry_deleteEntry_self s.entries k

theorem TokenStore.get_delete_ne (s : TokenStore) (k k2 : String)
    (h : k2 ≠ k) : (s.delete k).get k2 = s.get k2 :=
  lookupEntry_deleteEntry_ne s.entries k k2 h

/-- The resolved session key is never the empty string: each fallback of
`jsOr` replaces an empty or absent value, and the final default is the
non-empty literal. -/
theorem resolveSessionId_ne_empty (h1 h2 : Option String) :
    resolveSessionId h1 h2 ≠ "" := by
  unfold resolveSessionId jsOr
  cases h1 with
  | none =>
    cases h2 with
    | none => simp
    | some s =>
      by_cases hs : s = "" <;> simp [hs]
  | some s =>
    by_cases hs : s = ""
    · cases h2 with
      | none => simp [hs]
      | some t =>
        by_cases ht : t = "" <;> simp [hs, ht]
    · simp [hs]

/-! Claim theorems. -/

/-- Claim C1 (code bug): the round trip fails in the code at the failing
input below. Starting authorization and completing it with the matching code
and state succeeds and stores the token record — but only in auth.js's
module-local Map. The Authorization Gate reads the distinct, never-written
Map of backend/utils/tokenStore.js, so a trading request presenting the
freshly issued session id (well before expiry) is rejected with 401
Unauthorized instead of receiving the stored access token. The claim
matches the program's own comments (trading.js line 15: Import token store
from auth route; auth.js line 180: Export token store for use in other
modules); the import of the separate utils store is the slip. -/
theorem auth_roundTrip_gate_miss :
    (callbackRoute ⟨[]⟩ (some (authorizeRoute none "st1" "cv1")) (some "c1")
        (some "st1") (some ⟨"tok1", some "rt1", 3600⟩) "sid1" 0).result
      = .redirectDashboard "sid1" ∧
    (callbackRoute ⟨[]⟩ (some (authorizeRoute none "st1" "cv1")) (some "c1")
        (some "st1") (some ⟨"tok1", some "rt1", 3600⟩) "sid1" 0).store.get
      "sid1" = some ⟨"tok1", some "rt1", 3600000⟩ ∧
    authenticateRequest utilsTokenStore (some "sid1") none 100
      = .unauthorized := by
  refine ⟨by decide, by decide, by decide⟩

/-- Claim C2 counterexample: a successful callback at time 0 with
expires_in = 3600 stores expiresAt = 3600000 exactly, which does not
strictly precede issuance time plus the provider-declared lifetime — there
is no safety buffer. -/
theorem expiresAt_noBuffer_cex :
    ((callbackRoute ⟨[]⟩ (some ⟨some "st1", some "cv1"⟩) (some "c1")
        (some "st1") (some ⟨"tok1", some "rt1", 3600⟩) "sid1" 0).store.get
      "sid1") = some ⟨"tok1", some "rt1", 3600000⟩ ∧
    ¬ ((3600000 : Int) < 0 + 3600 * 1000) := by
  refine ⟨by decide, by decide⟩

/-- Claim C2 amended: every token record written by a successful code
exchange or refresh has expiresAt equal to issuance time plus the
provider-declared lifetime exactly (expires_in seconds, converted to
milliseconds), with no safety buffer subtracted. -/
theorem expiresAt_exact (store : TokenStore) (s : Session)
    (st code fid sid : String) (tokens : TokenRecord) (tr : TokenResponse)
    (now : Int) (hmatch : s.oauthState = some st)
    (hsid : sid ≠ "") (hget : store.get sid = some tokens) :
    ((callbackRoute store (some s) (some code) (some st) (some tr) fid
        now).store.get fid).map TokenRecord.expiresAt
      = some (now + tr.expires_in * 1000) ∧
    ((refreshRoute store (some sid) (some tr) now).store.get sid).map
        TokenRecord.expiresAt = some (now + tr.expires_in * 1000) := by
  constructor
  · simp [callbackRoute, hmatch, TokenStore.get_set_self]
  · simp [refreshRoute, hsid, hget, TokenStore.get_set_self]

/-- Witness for the amended C2 at concrete inputs. -/
theorem expiresAt_exact_witness :
    ((callbackRoute ⟨[("k1", ⟨"a1", some "r1", 50⟩)]⟩
        (some ⟨some "st1", some "cv1"⟩) (some "c1") (some "st1")
        (some ⟨"t2", some "r2", 3600⟩) "f1" 7).store.get "f1").map
      TokenRecord.expiresAt = some (7 + 3600 * 1000) ∧
    ((refreshRoute ⟨[("k1", ⟨"a1", some "r1", 50⟩)]⟩ (some "k1")
        (some ⟨"t2", some "r2", 3600⟩) 7).store.get "k1").map
      TokenRecord.expiresAt = some (7 + 3600 * 1000) :=
  expiresAt_exact ⟨[("k1", ⟨"a1", some "r1", 50⟩)]⟩ ⟨some "st1", some "cv1"⟩
    "st1" "c1" "f1" "k1" ⟨"a1", some "r1", 50⟩ ⟨"t2", some "r2", 3600⟩ 7
    rfl (by decide) rfl

/-- Claim C3 counterexample: a successful callback leaves the stored state
and code verifier in the session untouched — the pending attempt still
exists afterwards — and a second callback presenting the same state passes
validation and succeeds again (replay). -/
theorem pending_not_discarded_cex :
    (callbackRoute ⟨[]⟩ (some ⟨some "st1", some "cv1"⟩) (some "c1")
        (some "st1") (some ⟨"t1", some "r1", 3600⟩) "f1" 0).session
      = some ⟨some "st1", some "cv1"⟩ ∧
    (callbackRoute
        (callbackRoute ⟨[]⟩ (some ⟨some "st1", some "cv1"⟩) (some "c1")
          (some "st1") (some ⟨"t1", some "r1", 3600⟩) "f1" 0).store
        (callbackRoute ⟨[]⟩ (some ⟨some "st1", some "cv1"⟩) (some "c1")
          (some "st1") (some ⟨"t1", some "r1", 3600⟩) "f1" 0).session
        (some "c1") (some "st1") (some ⟨"t1", some "r1", 3600⟩) "f2" 0).result
      = .redirectDashboard "f2" := by
  refine ⟨by decide, by decide⟩

/-- Claim C3 amended: the callback never discards the stored state and code
verifier — the request session is unchanged on every outcome (success, state
mismatch, or exchange failure) — and consequently a successful callback can
be replayed: a second invocation presenting the same state succeeds again. -/
theorem callback_preserves_session (store : TokenStore)
    (session : Option Session) (code st : Option String)
    (exchange : Option TokenResponse) (fid fid2 : String) (now now2 : Int) :
    (callbackRoute store session code st exchange fid now).session
      = session ∧
    ((callbackRoute store session code st exchange fid now).result
        = .redirectDashboard fid →
      (callbackRoute
          (callbackRoute store session code st exchange fid now).store
          (callbackRoute store session code st exchange fid now).session
          code st exchange fid2 now2).result = .redirectDashboard fid2) := by
  cases session with
  | none => simp [callbackRoute]
  | some s =>
    by_cases hst : st = s.oauthState
    · cases exchange with
      | none => simp [callbackRoute, hst]
      | some tr => simp [callbackRoute, hst]
    · simp [callbackRoute, hst]

/-- Witness for the amended C3 at concrete inputs. -/
theorem callback_preserves_session_witness :
    (callbackRoute ⟨[]⟩ (some ⟨some "s1", some "v1"⟩) (some "c1") (some "s1")
        (some ⟨"t1", none, 60⟩) "f1" 0).session
      = some ⟨some "s1", some "v1"⟩ ∧
    (callbackRoute
        (callbackRoute ⟨[]⟩ (some ⟨some "s1", some "v1"⟩) (some "c1")
          (some "s1") (some ⟨"t1", none, 60⟩) "f1" 0).store
        (callbackRoute ⟨[]⟩ (some ⟨some "s1", some "v1"⟩) (some "c1")
          (some "s1") (some ⟨"t1", none, 60⟩) "f1" 0).session
        (some "c1") (some "s1") (some ⟨"t1", none, 60⟩) "f2" 5).result
      = .redirectDashboard "f2" :=
  ⟨(callback_preserves_session ⟨[]⟩ (some ⟨some "s1", some "v1"⟩) (some "c1")
      (some "s1") (some ⟨"t1", none, 60⟩) "f1" "f2" 0 5).1,
   (callback_preserves_session ⟨[]⟩ (some ⟨some "s1", some "v1"⟩) (some "c1")
      (some "s1") (some ⟨"t1", none, 60⟩) "f1" "f2" 0 5).2 (by decide)⟩

/-- Claim C4 (confirmed): the Gate returns 401 Unauthorized when no token
record exists for the resolved session key, 401 Token expired when expiresAt
has elapsed (for a record holding a real, non-empty access token), and
otherwise passes the stored access token downstream; at the boundary, a call
1ms before expiresAt succeeds and a call 1ms after fails as expired. -/
theorem gate_error_behavior (store : TokenStore)
    (hdr sid : Option String) (now : Int) :
    (store.get (resolveSessionId hdr sid) = none →
      authenticateRequest store hdr sid now = .unauthorized) ∧
    (∀ tokens : TokenRecord,
      store.get (resolveSessionId hdr sid) = some tokens →
      tokens.accessToken ≠ "" →
      (tokens.expiresAt ≤ now →
        authenticateRequest store hdr sid now = .tokenExpired) ∧
      (now < tokens.expiresAt →
        authenticateRequest store hdr sid now
          = .ok tokens.accessToken (resolveSessionId hdr sid)) ∧
      authenticateRequest store hdr sid (tokens.expiresAt - 1)
        = .ok tokens.accessToken (resolveSessionId hdr sid) ∧
      authenticateRequest store hdr sid (tokens.expiresAt + 1)
        = .tokenExpired) := by
  have hkey : resolveSessionId hdr sid ≠ "" :=
    resolveSessionId_ne_empty hdr sid
  refine ⟨?_, ?_⟩
  · intro hget
    simp [authenticateRequest, hkey, hget]
  · intro tokens hget htok
    refine ⟨?_, ?_, ?_, ?_⟩
    · intro hexp
      simp [authenticateRequest, hkey, hget, htok, hexp]
    · intro hlt
      have hexp : ¬ tokens.expiresAt ≤ now := by omega
      simp [authenticateRequest, hkey, hget, htok, hexp]
    · have hexp : ¬ tokens.expiresAt ≤ tokens.expiresAt - 1 := by omega
      simp [authenticateRequest, hkey, hget, htok, hexp]
    · have hexp : tokens.expiresAt ≤ tokens.expiresAt + 1 := by omega
      simp [authenticateRequest, hkey, hget, htok, hexp]

/-- Witness for C4 at concrete inputs: a missing record, a call 1ms before
expiry, and a call 1ms after expiry. -/
theorem gate_error_behavior_witness :
    authenticateRequest ⟨[]⟩ (some "k1") none 0 = .unauthorized ∧
    authenticateRequest ⟨[("k1", ⟨"a1", some "r1", 500⟩)]⟩ (some "k1") none
      (500 - 1) = .ok "a1" (resolveSessionId (some "k1") none) ∧
    authenticateRequest ⟨[("k1", ⟨"a1", some "r1", 500⟩)]⟩ (some "k1") none
      (500 + 1) = .tokenExpired :=
  ⟨(gate_error_behavior ⟨[]⟩ (some "k1") none 0).1 rfl,
   ((gate_error_behavior ⟨[("k1", ⟨"a1", some "r1", 500⟩)]⟩ (some "k1") none
        0).2 ⟨"a1", some "r1", 500⟩ rfl (by decide)).2.2.1,
   ((gate_error_behavior ⟨[("k1", ⟨"a1", some "r1", 500⟩)]⟩ (some "k1") none
        0).2 ⟨"a1", some "r1", 500⟩ rfl (by decide)).2.2.2⟩

/-- Claim C5 (confirmed): a trading request with no sessionid header and no
session-middleware id resolves to the fixed key default-user, so every such
caller is authorized against the single record stored under that key and
receives its bearer token. -/
theorem gate_default_user (store : TokenStore) (now : Int)
    (tokens : TokenRecord) (hget : store.get "default-user" = some tokens)
    (htok : tokens.accessToken ≠ "") (hlive : now < tokens.expiresAt) :
    resolveSessionId none none = "default-user" ∧
    authenticateRequest store none none now
      = .ok tokens.accessToken "default-user" := by
  have hexp : ¬ tokens.expiresAt ≤ now := by omega
  exact ⟨rfl, by
    simp [authenticateRequest, resolveSessionId, jsOr, hget, htok, hexp]⟩

/-- Witness for C5 at concrete inputs. -/
theorem gate_default_user_witness :
    resolveSessionId none none = "default-user" ∧
    authenticateRequest ⟨[("default-user", ⟨"a1", some "r1", 500⟩)]⟩ none none
      10 = .ok "a1" "default-user" :=
  gate_default_user ⟨[("default-user", ⟨"a1", some "r1", 500⟩)]⟩ 10
    ⟨"a1", some "r1", 500⟩ rfl (by decide) (by decide)

/-- Claim C6 counterexample: a callback with no pending attempt (no session
object) and a callback with a state mismatch produce the identical failure —
the same auth_failed error redirect — so no distinct NoPendingAttempt error
exists. -/
theorem callback_failure_not_distinct_cex :
    (callbackRoute ⟨[]⟩ none (some "c1") (some "s1")
        (some ⟨"t1", none, 60⟩) "f1" 0).result
      = .redirectError "auth_failed" ∧
    (callbackRoute ⟨[]⟩ (some ⟨some "x1", some "v1"⟩) (some "c1") (some "s1")
        (some ⟨"t1", none, 60⟩) "f1" 0).result
      = .redirectError "auth_failed" := by
  refine ⟨by decide, by decide⟩

/-- Claim C6 amended: a state mismatch and a missing session (no pending
attempt) both fail with the one undifferentiated auth_failed error redirect
— the code raises the same Invalid-state error for both — and in both cases
no token record is written, the store being left unchanged. -/
theorem callback_failure_uniform (store : TokenStore)
    (session : Option Session) (code st : Option String)
    (exchange : Option TokenResponse) (fid : String) (now : Int)
    (h : session = none ∨ ∃ s, session = some s ∧ st ≠ s.oauthState) :
    (callbackRoute store session code st exchange fid now).result
      = .redirectError "auth_failed" ∧
    (callbackRoute store session code st exchange fid now).store
      = store := by
  rcases h with h | ⟨s, hs, hst⟩
  · subst h
    simp [callbackRoute]
  · subst hs
    simp [callbackRoute, hst]

/-- Witness for the amended C6 at concrete inputs. -/
theorem callback_failure_uniform_witness :
    (callbackRoute ⟨[]⟩ (some ⟨some "x1", some "v1"⟩) (some "c1") (some "s1")
        (some ⟨"t1", none, 60⟩) "f1" 0).result
      = .redirectError "auth_failed" ∧
    (callbackRoute ⟨[]⟩ (some ⟨some "x1", some "v1"⟩) (some "c1") (some "s1")
        (some ⟨"t1", none, 60⟩) "f1" 0).store = ⟨[]⟩ :=
  callback_failure_uniform ⟨[]⟩ (some ⟨some "x1", some "v1"⟩) (some "c1")
    (some "s1") (some ⟨"t1", none, 60⟩) "f1" 0
    (Or.inr ⟨⟨some "x1", some "v1"⟩, rfl, by decide⟩)

/-- Claim C7 counterexample: with a stored record that has no refresh token
on file, the refresh route does not fail with 401 before the provider call —
it makes the outbound exchange anyway (here the exchange fails, yielding the
500 outcome, not the claimed 401-without-call). -/
theorem refresh_missing_refreshToken_cex :
    (refreshRoute ⟨[("k1", ⟨"a1", none, 500⟩)]⟩ (some "k1") none
        0).outboundCall = true ∧
    (refreshRoute ⟨[("k1", ⟨"a1", none, 500⟩)]⟩ (some "k1") none 0).result
      = .refreshFailed := by
  refine ⟨by decide, by decide⟩

/-- Claim C7 amended: the refresh route fails with 401 making no outbound
call exactly when the session id is absent, empty, or has no record in the
store; a stored record lacking a refresh token does not short-circuit — the
outbound exchange is still attempted; and success: true is returned only
when the exchange succeeded. -/
theorem refresh_error_behavior (store : TokenStore) (sid : String)
    (exchange : Option TokenResponse) (now : Int) :
    (refreshRoute store none exchange now
      = ⟨store, .invalidSession, false⟩) ∧
    (store.get sid = none →
      refreshRoute store (some sid) exchange now
        = ⟨store, .invalidSession, false⟩) ∧
    (∀ tokens : TokenRecord, store.get sid = some tokens → sid ≠ "" →
      (refreshRoute store (some sid) exchange now).outboundCall = true) ∧
    ((refreshRoute store (some sid) exchange now).result = .success →
      exchange.isSome = true) := by
  refine ⟨by simp [refreshRoute], ?_, ?_, ?_⟩
  · intro hget
    by_cases hsid : sid = ""
    · simp [refreshRoute, hsid]
    · simp [refreshRoute, hsid, hget]
  · intro tokens hget hsid
    cases exchange with
    | none => simp [refreshRoute, hsid, hget]
    | some tr => simp [refreshRoute, hsid, hget]
  · intro hsucc
    cases exchange with
    | some tr => rfl
    | none =>
      exfalso
      by_cases hsid : sid = ""
      · simp [refreshRoute, hsid] at hsucc
      · cases hget2 : store.get sid with
        | none => simp [refreshRoute, hsid, hget2] at hsucc
        | some t => simp [refreshRoute, hsid, hget2] at hsucc

/-- Witness for the amended C7 at concrete inputs. -/
theorem refresh_error_behavior_witness :
    refreshRoute ⟨[("k1", ⟨"a1", none, 500⟩)]⟩ none
      (some ⟨"a2", some "r2", 3600⟩) 0
      = ⟨⟨[("k1", ⟨"a1", none, 500⟩)]⟩, .invalidSession, false⟩ ∧
    refreshRoute ⟨[("k1", ⟨"a1", none, 500⟩)]⟩ (some "kx")
      (some ⟨"a2", some "r2", 3600⟩) 0
      = ⟨⟨[("k1", ⟨"a1", none, 500⟩)]⟩, .invalidSession, false⟩ ∧
    (refreshRoute ⟨[("k1", ⟨"a1", none, 500⟩)]⟩ (some "k1")
        (some ⟨"a2", some "r2", 3600⟩) 0).outboundCall = true ∧
    (some (⟨"a2", some "r2", 3600⟩ : TokenResponse)).isSome = true :=
  ⟨(refresh_error_behavior ⟨[("k1", ⟨"a1", none, 500⟩)]⟩ "k1"
      (some ⟨"a2", some "r2", 3600⟩) 0).1,
   (refresh_error_behavior ⟨[("k1", ⟨"a1", none, 500⟩)]⟩ "kx"
      (some ⟨"a2", some "r2", 3600⟩) 0).2.1 rfl,
   (refresh_error_behavior ⟨[("k1", ⟨"a1", none, 500⟩)]⟩ "k1"
      (some ⟨"a2", some "r2", 3600⟩) 0).2.2.1 ⟨"a1", none, 500⟩ rfl
     (by decide),
   (refresh_error_behavior ⟨[("k1", ⟨"a1", none, 500⟩)]⟩ "k1"
      (some ⟨"a2", some "r2", 3600⟩) 0).2.2.2 (by decide)⟩

/-- Claim C8 (confirmed): a failed refresh exchange returns the error
outcome and leaves the whole store — hence the stored record, all three
fields — exactly as before the call; a successful exchange whose response
omits refresh_token writes a record that reuses the prior refresh token
verbatim. -/
theorem refresh_atomicity (store : TokenStore) (sid : String)
    (tokens : TokenRecord) (now : Int)
    (hsid : sid ≠ "") (hget : store.get sid = some tokens) :
    refreshRoute store (some sid) none now
      = ⟨store, .refreshFailed, true⟩ ∧
    (∀ tr : TokenResponse, tr.refresh_token = none →
      (refreshRoute store (some sid) (some tr) now).store.get sid
        = some ⟨tr.access_token, tokens.refreshToken,
            now + tr.expires_in * 1000⟩) := by
  constructor
  · simp [refreshRoute, hsid, hget]
  · intro tr hrt
    simp [refreshRoute, hsid, hget, hrt, TokenStore.get_set_self]

/-- Witness for C8 at concrete inputs. -/
theorem refresh_atomicity_witness :
    refreshRoute ⟨[("k1", ⟨"a1", some "r1", 500⟩)]⟩ (some "k1") none 0
      = ⟨⟨[("k1", ⟨"a1", some "r1", 500⟩)]⟩, .refreshFailed, true⟩ ∧
    (refreshRoute ⟨[("k1", ⟨"a1", some "r1", 500⟩)]⟩ (some "k1")
        (some ⟨"a2", none, 3600⟩) 7).store.get "k1"
      = some ⟨"a2", some "r1", 7 + 3600 * 1000⟩ :=
  ⟨(refresh_atomicity ⟨[("k1", ⟨"a1", some "r1", 500⟩)]⟩ "k1"
      ⟨"a1", some "r1", 500⟩ 0 (by decide) rfl).1,
   (refresh_atomicity ⟨[("k1", ⟨"a1", some "r1", 500⟩)]⟩ "k1"
      ⟨"a1", some "r1", 500⟩ 7 (by decide) rfl).2 ⟨"a2", none, 3600⟩ rfl⟩

/-- Claim C9 (confirmed): logout is idempotent — for a non-empty session
key it removes any stored record, deleting an absent key is not an error,
two consecutive calls both respond success: true, and already after the
first call (and still after the second) the store holds nothing for that
key. -/
theorem logout_idempotent (store : TokenStore) (sid : String)
    (hsid : sid ≠ "") :
    (logoutRoute store (some sid)).success = true ∧
    (logoutRoute store (some sid)).store.get sid = none ∧
    (logoutRoute (logoutRoute store (some sid)).store (some sid)).success
      = true ∧
    (logoutRoute (logoutRoute store (some sid)).store (some sid)).store.get
      sid = none := by
  have hstep : ∀ st : TokenStore,
      (logoutRoute st (some sid)).success = true ∧
      (logoutRoute st (some sid)).store.get sid = none := by
    intro st
    by_cases hh : st.has sid
    · simp [logoutRoute, hsid, hh, TokenStore.get_delete_self]
    · have hgn : st.get sid = none := by
        cases hgs : st.get sid with
        | none => rfl
        | some t => exact absurd (by simp [TokenStore.has, hgs]) hh
      simp [logoutRoute, hsid, hh, hgn]
  exact ⟨(hstep store).1, (hstep store).2,
    (hstep (logoutRoute store (some sid)).store).1,
    (hstep (logoutRoute store (some sid)).store).2⟩

/-- Witness for C9 at concrete inputs. -/
theorem logout_idempotent_witness :
    (logoutRoute ⟨[("k1", ⟨"a1", some "r1", 500⟩)]⟩ (some "k1")).success
      = true ∧
    (logoutRoute ⟨[("k1", ⟨"a1", some "r1", 500⟩)]⟩ (some "k1")).store.get
      "k1" = none ∧
    (logoutRoute (logoutRoute ⟨[("k1", ⟨"a1", some "r1", 500⟩)]⟩
        (some "k1")).store (some "k1")).success = true ∧
    (logoutRoute (logoutRoute ⟨[("k1", ⟨"a1", some "r1", 500⟩)]⟩
        (some "k1")).store (some "k1")).store.get "k1" = none :=
  logout_idempotent ⟨[("k1", ⟨"a1", some "r1", 500⟩)]⟩ "k1" (by decide)

/-- Claim C10 counterexample: after a successful callback that stores the
record under the fresh identifier f1 and exposes f1 in the redirect,
presenting f1 as the sessionid header to the Gate — which reads the
never-written utils/tokenStore Map of the running program — yields 401
Unauthorized. Knowledge of the identifier alone does not suffice to use the
stored tokens through the trading routes. -/
theorem identifier_not_sufficient_cex :
    (callbackRoute ⟨[]⟩ (some ⟨some "s1", some "v1"⟩) (some "c1") (some "s1")
        (some ⟨"a1", some "r1", 3600⟩) "f1" 0).result
      = .redirectDashboard "f1" ∧
    authenticateRequest utilsTokenStore (some "f1") none 10
      = .unauthorized := by
  refine ⟨by decide, by decide⟩

/-- Claim C10 amended: a successful callback stores the token record under
the freshly generated session identifier — the randomness oracle parameter
standing for crypto.randomBytes(32).toString(hex) — independent of any
pre-existing session identity, exposes exactly that identifier in the
dashboard redirect (the session query parameter), and leaves every other
entry of auth.js's store untouched: each success adds a new entry and never
replaces or deletes entries under other keys. The identifier does not,
however, suffice to use the stored tokens: the Gate reads the separate
utils/tokenStore Map, which the callback never writes, so a trading request
presenting the identifier is rejected with 401 Unauthorized. -/
theorem callback_fresh_session_entry (store : TokenStore) (s : Session)
    (code st fid : String) (tr : TokenResponse) (now now2 : Int)
    (hmatch : s.oauthState = some st) (hfid : fid ≠ "") :
    (callbackRoute store (some s) (some code) (some st) (some tr) fid
        now).result = .redirectDashboard fid ∧
    (callbackRoute store (some s) (some code) (some st) (some tr) fid
        now).store.get fid
      = some ⟨tr.access_token, tr.refresh_token,
          now + tr.expires_in * 1000⟩ ∧
    (∀ k, k ≠ fid →
      (callbackRoute store (some s) (some code) (some st) (some tr) fid
          now).store.get k = store.get k) ∧
    authenticateRequest utilsTokenStore (some fid) none now2
      = .unauthorized := by
  refine ⟨by simp [callbackRoute, hmatch], ?_, ?_, ?_⟩
  · simp [callbackRoute, hmatch, TokenStore.get_set_self]
  · intro k hk
    simp only [callbackRoute, hmatch, ne_eq, not_true_eq_false, if_false]
    exact TokenStore.get_set_ne store fid k _ hk
  · simp [authenticateRequest, utilsTokenStore, resolveSessionId, jsOr,
      hfid, TokenStore.get, lookupEntry]

/-- Witness for the amended C10 at concrete inputs, with a pre-existing
entry that is preserved and a Gate probe with the fresh identifier. -/
theorem callback_fresh_session_entry_witness :
    (callbackRoute ⟨[("old1", ⟨"a0", some "r0", 99⟩)]⟩
        (some ⟨some "s1", some "v1"⟩) (some "c1") (some "s1")
        (some ⟨"a1", some "r1", 3600⟩) "f1" 5).result
      = .redirectDashboard "f1" ∧
    (callbackRoute ⟨[("old1", ⟨"a0", some "r0", 99⟩)]⟩
        (some ⟨some "s1", some "v1"⟩) (some "c1") (some "s1")
        (some ⟨"a1", some "r1", 3600⟩) "f1" 5).store.get "f1"
      = some ⟨"a1", some "r1", 5 + 3600 * 1000⟩ ∧
    (callbackRoute ⟨[("old1", ⟨"a0", some "r0", 99⟩)]⟩
        (some ⟨some "s1", some "v1"⟩) (some "c1") (some "s1")
        (some ⟨"a1", some "r1", 3600⟩) "f1" 5).store.get "old1"
      = (⟨[("old1", ⟨"a0", some "r0", 99⟩)]⟩ : TokenStore).get "old1" ∧
    authenticateRequest utilsTokenStore (some "f1") none 7
      = .unauthorized :=
  ⟨(callback_fresh_session_entry ⟨[("old1", ⟨"a0", some "r0", 99⟩)]⟩
      ⟨some "s1", some "v1"⟩ "c1" "s1" "f1" ⟨"a1", some "r1", 3600⟩ 5 7 rfl
      (by decide)).1,
   (callback_fresh_session_entry ⟨[("old1", ⟨"a0", some "r0", 99⟩)]⟩
      ⟨some "s1", some "v1"⟩ "c1" "s1" "f1" ⟨"a1", some "r1", 3600⟩ 5 7 rfl
      (by decide)).2.1,
   (callback_fresh_session_entry ⟨[("old1", ⟨"a0", some "r0", 99⟩)]⟩
      ⟨some "s1", some "v1"⟩ "c1" "s1" "f1" ⟨"a1", some "r1", 3600⟩ 5 7 rfl
      (by decide)).2.2.1 "old1" (by decide),
   (callback_fresh_session_entry ⟨[("old1", ⟨"a0", some "r0", 99⟩)]⟩
      ⟨some "s1", some "v1"⟩ "c1" "s1" "f1" ⟨"a1", some "r1", 3600⟩ 5 7 rfl
      (by decide)).2.2.2⟩
